import Mathlib

/-!
Verification of the m3u8 HLS reverse proxy (`src/server.py`).

Strings from Python are embedded as `List Char` (`Str`).  The URL functions
(`urlparse`, `urljoin`, `urlunsplit`, `os.path.basename`) are translated from
the CPython 3.11 standard library `urllib.parse` / `posixpath` sources, which
`server.py` imports.  The handlers `proxy`, `handle_m3u8` and `handle_other`
are translated from `server.py`; HTTP effects (the origin fetch and the served
response) are made explicit as record fields.  The `m3u8` playlist library and
the `flask_caching` cache are external packages whose sources are not part of
this repository; they are modelled from the design spec where indicated.
-/

namespace M3U8Proxy

/-- A Python `str`, embedded as its list of characters. -/
abbrev Str := List Char

/-- `s.lower()` (our URLs are ASCII, where `Char.toLower` agrees with Python). -/
def lowerStr (s : Str) : Str := s.map Char.toLower

/-- Split at the first occurrence of `c`: `some (before, after)` when `c`
occurs (models `s.find(c)` / `s.split(c, 1)`), `none` otherwise. -/
def splitFirst (c : Char) : Str → Option (Str × Str)
  | [] => none
  | x :: xs =>
    if x = c then some ([], xs)
    else (splitFirst c xs).map (fun r => (x :: r.1, r.2))

/-- Python `s.split(c)`: always a non-empty list of parts. -/
def splitOnChar (c : Char) : Str → List Str
  | [] => [[]]
  | x :: xs =>
    let r := splitOnChar c xs
    if x = c then [] :: r
    else
      match r with
      | h :: t => (x :: h) :: t
      | [] => [[x]]

/-- Python `c.join(parts)`. -/
def joinChar (c : Char) : List Str → Str
  | [] => []
  | [x] => x
  | x :: y :: t => x ++ c :: joinChar c (y :: t)

/-- `posixpath.basename(p)`: everything after the last `'/'` (CPython:
`p[p.rfind('/') + 1:]`). -/
def basename (p : Str) : Str :=
  match splitFirst '/' p.reverse with
  | some r => r.1.reverse
  | none => p

/-! ### `urllib.parse` (CPython 3.11) -/

/-- `urllib.parse.scheme_chars`. -/
def scheme_chars : Str :=
  "abcdefghijklmnopqrstuvwxyzABCDEFGHIJKLMNOPQRSTUVWXYZ0123456789+-.".data

/-- `urllib.parse.uses_relative`. -/
def uses_relative : List Str :=
  [[], "ftp".data, "http".data, "gopher".data, "nntp".data, "imap".data,
   "wais".data, "file".data, "https".data, "shttp".data, "mms".data,
   "prospero".data, "rtsp".data, "rtsps".data, "rtspu".data, "sftp".data,
   "svn".data, "svn+ssh".data, "ws".data, "wss".data]

/-- `urllib.parse.uses_netloc`. -/
def uses_netloc : List Str :=
  [[], "ftp".data, "http".data, "gopher".data, "nntp".data, "telnet".data,
   "imap".data, "wais".data, "file".data, "mms".data, "https".data,
   "shttp".data, "snews".data, "prospero".data, "rtsp".data, "rtsps".data,
   "rtspu".data, "rsync".data, "svn".data, "svn+ssh".data, "sftp".data,
   "nfs".data, "git".data, "git+ssh".data, "ws".data, "wss".data]

/-- `urllib.parse.uses_params`. -/
def uses_params : List Str :=
  [[], "ftp".data, "hdl".data, "prospero".data, "http".data, "imap".data,
   "https".data, "shttp".data, "rtsp".data, "rtsps".data, "rtspu".data,
   "sip".data, "sips".data, "mms".data, "sftp".data, "tel".data]

/-- `url.lstrip(_WHATWG_C0_CONTROL_OR_SPACE)`: strip leading U+0000..U+0020. -/
def removeC0Space (s : Str) : Str := s.dropWhile (fun c => c.val ≤ 32)

/-- `for b in _UNSAFE_URL_BYTES_TO_REMOVE: url = url.replace(b, "")`:
drop every tab, CR and LF. -/
def removeUnsafeBytes (s : Str) : Str :=
  s.filter (fun c => !(c == '\t' || c == '\r' || c == '\n'))

/-- The scheme-detection step of `urlsplit`: if the text before the first
`':'` is non-empty, starts with an ASCII letter and consists of scheme
characters, it (lowercased) is the scheme and the remainder is the rest;
otherwise the default scheme applies and the URL is unchanged. -/
def schemeSplit (dflt url : Str) : Str × Str :=
  match splitFirst ':' url with
  | some r =>
    match r.1 with
    | [] => (dflt, url)
    | b :: bs =>
      if b.isAlpha && (b :: bs).all (fun c => scheme_chars.contains c) then
        (lowerStr (b :: bs), r.2)
      else (dflt, url)
  | none => (dflt, url)

/-- `_splitnetloc` applied when the URL starts with `"//"`: the netloc runs to
the first of `'/'`, `'?'`, `'#'` (CPython takes the earliest delimiter). -/
def netlocSplit (url : Str) : Str × Str :=
  if url.take 2 = ['/', '/'] then
    ((url.drop 2).takeWhile (fun c => !(c == '/' || c == '?' || c == '#')),
     (url.drop 2).dropWhile (fun c => !(c == '/' || c == '?' || c == '#')))
  else ([], url)

/-- `if '#' in url: url, fragment = url.split('#', 1)`. -/
def fragmentSplit (url : Str) : Str × Str :=
  match splitFirst '#' url with
  | some r => r
  | none => (url, [])

/-- `if '?' in url: url, query = url.split('?', 1)`. -/
def querySplit (url : Str) : Str × Str :=
  match splitFirst '?' url with
  | some r => r
  | none => (url, [])

/-- Result of `urllib.parse.urlsplit`. -/
structure SplitResult where
  scheme : Str
  netloc : Str
  path : Str
  query : Str
  fragment : Str
deriving DecidableEq

/-- `urllib.parse.urlsplit(url, scheme=dflt)` with `allow_fragments=True`.
The IPv6-bracket and `_checknetloc` `ValueError` paths (which only reject
malformed bracketed hosts) are not modelled. -/
def urlsplitD (dflt url : Str) : SplitResult :=
  let u := removeUnsafeBytes (removeC0Space url)
  let sc := schemeSplit dflt u
  let nl := netlocSplit sc.2
  let fr := fragmentSplit nl.2
  let qu := querySplit fr.1
  ⟨sc.1, nl.1, qu.1, qu.2, fr.2⟩

/-- Result of `urllib.parse.urlparse`. -/
structure ParseResult where
  scheme : Str
  netloc : Str
  path : Str
  params : Str
  query : Str
  fragment : Str
deriving DecidableEq

/-- `urllib.parse._splitparams`. -/
def splitparams (url : Str) : Str × Str :=
  if url.contains '/' then
    match splitFirst '/' url.reverse with
    | some rv =>
      match splitFirst ';' rv.1.reverse with
      | some r => (rv.2.reverse ++ '/' :: r.1, r.2)
      | none => (url, [])
    | none => (url, [])
  else
    match splitFirst ';' url with
    | some r => r
    | none => (url, [])

/-- `urllib.parse.urlparse(url, scheme=dflt)`. -/
def urlparseD (dflt url : Str) : ParseResult :=
  let s := urlsplitD dflt url
  let pp :=
    if uses_params.contains s.scheme && s.path.contains ';' then
      splitparams s.path
    else (s.path, [])
  ⟨s.scheme, s.netloc, pp.1, pp.2, s.query, s.fragment⟩

/-- `urllib.parse.urlparse(url)` as called from `server.py`. -/
def urlparse (url : Str) : ParseResult := urlparseD [] url

/-- `urllib.parse.urlunsplit`. -/
def urlunsplit (scheme netloc path query fragment : Str) : Str :=
  let u1 :=
    if netloc ≠ [] ∨ (scheme ≠ [] ∧ uses_netloc.contains scheme = true ∧
        path.take 2 ≠ ['/', '/']) then
      '/' :: '/' :: netloc ++ (if path ≠ [] ∧ path.take 1 ≠ ['/'] then '/' :: path else path)
    else path
  let u2 := if scheme ≠ [] then scheme ++ ':' :: u1 else u1
  let u3 := if query ≠ [] then u2 ++ '?' :: query else u2
  if fragment ≠ [] then u3 ++ '#' :: fragment else u3

/-- `urllib.parse.urlunparse`. -/
def urlunparse (scheme netloc path params query fragment : Str) : Str :=
  urlunsplit scheme netloc (if params ≠ [] then path ++ ';' :: params else path)
    query fragment

/-- `segments[1:-1] = filter(None, segments[1:-1])`: drop empty parts from the
middle of the list, keeping the first and last elements. -/
def filterMiddleEmpties (l : List Str) : List Str :=
  match l with
  | [] => []
  | [x] => [x]
  | x :: xs =>
    match xs.getLast? with
    | none => [x]
    | some last => x :: (xs.dropLast.filter (fun s => !s.isEmpty)) ++ [last]

/-- The `..`/`.` resolution loop of `urljoin` (`resolved_path` accumulator;
popping an empty accumulator is ignored). -/
def resolveDotSegs (acc : List Str) : List Str → List Str
  | [] => acc
  | seg :: rest =>
    if seg = "..".data then resolveDotSegs acc.dropLast rest
    else if seg = ".".data then resolveDotSegs acc rest
    else resolveDotSegs (acc ++ [seg]) rest

/-- `urllib.parse.urljoin(base, url)` (CPython 3.11). -/
def urljoin (base url : Str) : Str :=
  if base = [] then url
  else if url = [] then base
  else
    let b := urlparseD [] base
    let r := urlparseD b.scheme url
    if r.scheme ≠ b.scheme ∨ ¬ uses_relative.contains r.scheme then url
    else if uses_netloc.contains r.scheme ∧ r.netloc ≠ [] then
      urlunparse r.scheme r.netloc r.path r.params r.query r.fragment
    else
      let netloc := if uses_netloc.contains r.scheme then b.netloc else r.netloc
      if r.path = [] ∧ r.params = [] then
        urlunparse r.scheme netloc b.path b.params
          (if r.query = [] then b.query else r.query) r.fragment
      else
        let bparts0 := splitOnChar '/' b.path
        let bparts := if bparts0.getLast? ≠ some [] then bparts0.dropLast else bparts0
        let segments :=
          if r.path.take 1 = ['/'] then splitOnChar '/' r.path
          else filterMiddleEmpties (bparts ++ splitOnChar '/' r.path)
        let resolved0 := resolveDotSegs [] segments
        let resolved :=
          if segments.getLast? = some "..".data ∨ segments.getLast? = some ".".data
          then resolved0 ++ [[]] else resolved0
        let joined := joinChar '/' resolved
        urlunparse r.scheme netloc (if joined = [] then ['/'] else joined)
          r.params r.query r.fragment

/-! ### Configuration (`server.py` lines 22–31, 51–57, 179, 255)

`PROXY_BASE_URL` and `ALLOWED_DOMAINS` are read from the environment with the
defaults below; functions that depend on them take the configured value as an
explicit argument, and the defaults are named constants. -/

/-- Default of `PROXY_BASE_URL` (line 22). -/
def PROXY_BASE_URL : Str := "https://m3u8.adgstudios.co.za".data

/-- Default of `ALLOWED_DOMAINS` (line 31, after `.split(',')`). -/
def ALLOWED_DOMAINS : List Str :=
  ["www088.anzeat.pro".data, "www083.anzeat.pro".data]

/-- `CACHE_DEFAULT_TIMEOUT` in `cache_config` (line 53), in seconds. -/
def CACHE_DEFAULT_TIMEOUT : ℚ := 300

/-- The `timeout=300` of `@cache.memoize` on `handle_m3u8` (line 179). -/
def HANDLE_M3U8_CACHE_TIMEOUT : ℚ := 300

/-- The `timeout=300` of `@cache.memoize` on `handle_other` (line 255). -/
def HANDLE_OTHER_CACHE_TIMEOUT : ℚ := 300

/-! ### Helper functions (`server.py` lines 93–120) -/

/-- `is_absolute_url` (lines 93–95): `bool(urlparse(url).netloc)`. -/
def is_absolute_url (url : Str) : Bool := !(urlparse url).netloc.isEmpty

/-- `construct_proxy_url` (lines 97–104): `f"{PROXY_BASE_URL}/proxy/{requested_path}"`. -/
def construct_proxy_url (base requested_path : Str) : Str :=
  base ++ "/proxy/".data ++ requested_path

/-- `get_target_url` (lines 106–113): `f"https://{requested_path}"`. -/
def get_target_url (requested_path : Str) : Str :=
  "https://".data ++ requested_path

/-- The routing layer maps `/proxy/<path:requested_path>` back to
`requested_path`; composed with `get_target_url` this is how the Dispatcher
decodes a rewritten reference into the URL it re-fetches. -/
def decode_proxied (base proxied : Str) : Str :=
  get_target_url (proxied.drop (base ++ "/proxy/".data).length)

/-! ### Playlist model

Modelled from the spec: the third-party `m3u8` library (imported on line 4 of
`server.py`, not part of this repository's sources) supplies
`m3u8.M3U8(text)`, `.playlists`, `.segments`, `.is_variant` and `.dumps()`.
Per spec §3/§4.2 a parsed manifest is an ordered sequence of variant/segment
references interleaved with playlist-level syntax that serialization must
round-trip byte-identically, and per §4.3 of the claims sources a manifest is
master exactly when it has stream-info declarations and no segment entries.
A URI line is a variant reference when it follows a `#EXT-X-STREAM-INF` tag
and a segment reference when it follows an `#EXTINF` tag; all other lines are
opaque playlist syntax carried verbatim. -/
inductive PlaylistLine where
  | other (raw : Str)
  | variantUri (uri : Str)
  | segmentUri (uri : Str)
deriving DecidableEq

/-- The raw text of a playlist line (a reference line's text is its URI). -/
def PlaylistLine.raw : PlaylistLine → Str
  | .other r => r
  | .variantUri u => u
  | .segmentUri u => u

/-- Modelled from the spec: line classifier of the `m3u8` parser.  The state
records whether a stream-info (`some true`) or segment (`some false`) tag is
awaiting its URI line. -/
def classifyLines (expect : Option Bool) : List Str → List PlaylistLine
  | [] => []
  | l :: rest =>
    if "#EXT-X-STREAM-INF".data.isPrefixOf l then
      .other l :: classifyLines (some true) rest
    else if "#EXTINF".data.isPrefixOf l then
      .other l :: classifyLines (some false) rest
    else if "#".data.isPrefixOf l ∨ l = [] then
      .other l :: classifyLines expect rest
    else
      match expect with
      | some true => .variantUri l :: classifyLines none rest
      | some false => .segmentUri l :: classifyLines none rest
      | none => .other l :: classifyLines none rest

/-- A parsed playlist: the ordered lines.  (`server.py` line 189 also passes
`base_uri=target_url` to the library, but does its own URI resolution and
never reads the library's resolved URIs, so the model does not store it.) -/
structure M3U8 where
  lines : List PlaylistLine
deriving DecidableEq

/-- Modelled from the spec: `m3u8.M3U8(text)`. -/
def m3u8_parse (text : Str) : M3U8 :=
  ⟨classifyLines none (splitOnChar '\n' text)⟩

/-- The ordered variant-reference URIs (`playlist.playlists[i].uri`). -/
def M3U8.playlists (m : M3U8) : List Str :=
  m.lines.filterMap (fun l => match l with | .variantUri u => some u | _ => none)

/-- The ordered segment-reference URIs (`playlist.segments[i].uri`). -/
def M3U8.segments (m : M3U8) : List Str :=
  m.lines.filterMap (fun l => match l with | .segmentUri u => some u | _ => none)

/-- Modelled from the spec: the library's `is_variant` flag, per the spec's
classification rule — master iff one or more stream-info declarations and no
segment entries. -/
def M3U8.is_variant (m : M3U8) : Bool :=
  !m.playlists.isEmpty && m.segments.isEmpty

/-- Modelled from the spec: `playlist.dumps()`, serializing the lines back to
playlist text (round-trip fidelity for non-URI syntax, spec §4.2). -/
def M3U8.dumps (m : M3U8) : Str :=
  joinChar '\n' (m.lines.map PlaylistLine.raw)

/-- `is_master_playlist` (`server.py` lines 115–120): `playlist.is_variant`. -/
def is_master_playlist (playlist : M3U8) : Bool := playlist.is_variant

/-! ### The proxy endpoint (`server.py` lines 139–173) -/

/-- Outcome of the `proxy` view's validation and dispatch: an error response
with its HTTP status and body, or dispatch to one of the two handlers with
the constructed target URL. -/
inductive ProxyResult where
  | err (status : Nat) (msg : Str)
  | m3u8 (target_url : Str)
  | other (target_url : Str)
deriving DecidableEq

/-- `proxy(requested_path)` (lines 142–167): build the target URL, reject a
target without scheme or netloc (400), reject a netloc outside
`ALLOWED_DOMAINS` (403), then dispatch on whether the lowercased path ends in
`.m3u8`. -/
def proxy (allowed : List Str) (requested_path : Str) : ProxyResult :=
  let target_url := get_target_url requested_path
  let parsed_target := urlparse target_url
  if parsed_target.scheme = [] ∨ parsed_target.netloc = [] then
    .err 400 "Invalid target URL.".data
  else if parsed_target.netloc ∉ allowed then
    .err 403 "Disallowed target URL.".data
  else if ".m3u8".data.isSuffixOf (lowerStr parsed_target.path) then
    .m3u8 target_url
  else
    .other target_url

/-! ### handle_m3u8 (`server.py` lines 179–249) -/

/-- The origin's reply to the manifest fetch: `response.url` is the final URL
after `requests` follows redirects, `response.text` the body. -/
structure FetchResponse where
  url : Str
  text : Str
deriving DecidableEq

/-- Resolution of one reference URI (lines 195–198 and 211–214): a relative
URI is joined onto `target_url` — the URL the handler was called with, not
the response's final URL. -/
def resolveRef (target_url uri : Str) : Str :=
  if is_absolute_url uri then uri else urljoin target_url uri

/-- Rewriting of one reference URI (lines 195–202 and 211–218): resolve,
take `netloc + path` of the result, strip leading `'/'`, and wrap in the
proxy base. -/
def rewriteUri (base target_url uri : Str) : Str :=
  let original_uri := resolveRef target_url uri
  let parsed_original := urlparse original_uri
  let relative_path := parsed_original.netloc ++ parsed_original.path
  construct_proxy_url base (relative_path.dropWhile (· = '/'))

/-- The playlist rewriting of `handle_m3u8` (lines 191–222): the master
branch reassigns each `playlist_item.uri`, the media branch each
`segment.uri`; nothing else of the parsed playlist is touched. -/
def rewritePlaylist (base target_url : Str) (playlist : M3U8) : M3U8 :=
  if is_master_playlist playlist then
    ⟨playlist.lines.map (fun l => match l with
      | .variantUri u => .variantUri (rewriteUri base target_url u)
      | l => l)⟩
  else
    ⟨playlist.lines.map (fun l => match l with
      | .segmentUri u => .segmentUri (rewriteUri base target_url u)
      | l => l)⟩

/-- The response `handle_m3u8` serves, with the headers of the single origin
fetch it performs made explicit (`originRequestHeaders`). -/
structure ManifestResult where
  originRequestHeaders : List (Str × Str)
  status : Nat
  body : Str
  mimetype : Str
  headers : List (Str × Str)
deriving DecidableEq

/-- `handle_m3u8(target_url, requested_path)` (lines 180–249).  The fetch on
line 186 is `requests.get(target_url, timeout=TIMEOUT)` — no client headers
are forwarded.  The playlist is parsed from `response.text`, rewritten, and
served with status 200 (Flask's default), the Apple mpegurl mimetype, and a
`Content-Disposition: attachment` header carrying the basename of the
requested path.  (The on-disk save of the playlist and its failure path are
filesystem effects outside this model.) -/
def handle_m3u8 (base target_url requested_path : Str)
    (clientHeaders : List (Str × Str)) (response : FetchResponse) :
    ManifestResult :=
  let playlist := m3u8_parse response.text
  let modified_playlist := (rewritePlaylist base target_url playlist).dumps
  let filename := basename requested_path
  { originRequestHeaders := []
    status := 200
    body := modified_playlist
    mimetype := "application/vnd.apple.mpegurl".data
    headers := [("Content-Disposition".data,
                 "attachment; filename=\"".data ++ filename ++ ['"'])] }

/-! ### handle_other (`server.py` lines 255–283) -/

/-- The origin's reply to a segment fetch: its `Content-Type` header, when
present.  (The streamed body bytes pass through unmodified.) -/
structure SegmentResponse where
  url : Str
  contentType : Option Str
deriving DecidableEq

/-- Lines 261–265: forward every client request header whose name is not
`host` (case-insensitively) to the origin. -/
def forward_headers (clientHeaders : List (Str × Str)) : List (Str × Str) :=
  clientHeaders.filter (fun h => lowerStr h.1 ≠ "host".data)

/-- The response `handle_other` serves, with the headers of its origin fetch
made explicit. -/
structure OtherResult where
  originRequestHeaders : List (Str × Str)
  status : Nat
  content_type : Str
  headers : List (Str × Str)
deriving DecidableEq

/-- `handle_other(target_url, requested_path)` (lines 256–283): fetch with
the filtered client headers, then serve the streamed body with status 200 and
`response.headers.get('Content-Type', 'application/octet-stream')` as the
content type; no further headers are set. -/
def handle_other (target_url requested_path : Str)
    (clientHeaders : List (Str × Str)) (response : SegmentResponse) :
    OtherResult :=
  { originRequestHeaders := forward_headers clientHeaders
    status := 200
    content_type := response.contentType.getD "application/octet-stream".data
    headers := [] }

/-! ### Cache model

Modelled from the spec: the `flask_caching` `SimpleCache` backing both the
manifest and segment caches is an external package not in this repository's
sources.  Per spec §3/§4.3 an entry `{value, inserted_at, ttl}` is no longer
returned on lookup once `now - inserted_at > ttl`, and `put` replaces any
existing entry for the key. -/
structure CacheEntry where
  value : Str
  inserted_at : ℚ
  ttl : ℚ

/-- The cache: a mapping from keys to live entries. -/
def CacheState := Str → Option CacheEntry

/-- Modelled from the spec: `put(key, value, ttl)` at time `now` replaces the
entry for `key`. -/
def cachePut (c : CacheState) (key value : Str) (now ttl : ℚ) : CacheState :=
  fun k => if k = key then some ⟨value, now, ttl⟩ else c k

/-- Modelled from the spec: `get(key)` at time `now`: `Miss` (`none`) when no
entry exists or the entry's age exceeds its ttl. -/
def cacheGet (c : CacheState) (key : Str) (now : ℚ) : Option Str :=
  match c key with
  | some e => if now - e.inserted_at > e.ttl then none else some e.value
  | none => none

/-- Modelled from the spec: the memoization wrapper (`@cache.memoize`) around
a handler — serve the cached value on a hit; on a miss compute the value (a
fresh origin fetch, reported by the returned flag) and store it. -/
def cachedFetch (c : CacheState) (key : Str) (now ttl : ℚ) (compute : Str) :
    Str × Bool × CacheState :=
  match cacheGet c key now with
  | some v => (v, false, c)
  | none => (compute, true, cachePut c key compute now ttl)

/-- The non-reference playlist lines, carried verbatim through rewriting. -/
def M3U8.nonRefLines (m : M3U8) : List Str :=
  m.lines.filterMap (fun l => match l with | .other r => some r | _ => none)

/-! ### Helper lemmas -/

lemma splitFirst_append_not_mem (c : Char) (l₁ l₂ : Str) (h : c ∉ l₁) :
    splitFirst c (l₁ ++ c :: l₂) = some (l₁, l₂) := by
  induction l₁ with
  | nil => simp [splitFirst]
  | cons a t ih =>
    have hne : a ≠ c := fun hac => h (by simp [hac])
    simp [splitFirst, hne, ih (fun hm => h (List.mem_cons_of_mem a hm))]

lemma splitOnChar_ne_nil (c : Char) (s : Str) : splitOnChar c s ≠ [] := by
  cases s with
  | nil => simp [splitOnChar]
  | cons a t =>
    simp only [splitOnChar]
    by_cases hac : a = c
    · simp [hac]
    · rw [if_neg hac]
      cases hsp : splitOnChar c t <;> simp

lemma joinChar_cons_cons (c : Char) (a : Char) (h : Str) (tl : List Str) :
    joinChar c ((a :: h) :: tl) = a :: joinChar c (h :: tl) := by
  cases tl <;> rfl

lemma joinChar_splitOnChar (c : Char) (s : Str) :
    joinChar c (splitOnChar c s) = s := by
  induction s with
  | nil => rfl
  | cons a t ih =>
    simp only [splitOnChar]
    by_cases hac : a = c
    · rw [if_pos hac]
      cases hsp : splitOnChar c t with
      | nil => exact absurd hsp (splitOnChar_ne_nil c t)
      | cons h tl =>
        rw [hsp] at ih
        show c :: joinChar c (h :: tl) = a :: t
        rw [ih, hac]
    · rw [if_neg hac]
      cases hsp : splitOnChar c t with
      | nil => exact absurd hsp (splitOnChar_ne_nil c t)
      | cons h tl =>
        rw [hsp] at ih
        rw [joinChar_cons_cons, ih]

lemma classifyLines_raw (ls : List Str) :
    ∀ expect, (classifyLines expect ls).map PlaylistLine.raw = ls := by
  induction ls with
  | nil => intro expect; rfl
  | cons l rest ih =>
    intro expect
    simp only [classifyLines]
    split_ifs with h1 h2 h3
    · simp [PlaylistLine.raw, ih]
    · simp [PlaylistLine.raw, ih]
    · simp [PlaylistLine.raw, ih]
    · rcases expect with _ | b
      · simp [PlaylistLine.raw, ih]
      · cases b <;> simp [PlaylistLine.raw, ih]

lemma m3u8_dumps_parse (text : Str) : (m3u8_parse text).dumps = text := by
  show joinChar '\n' ((classifyLines none (splitOnChar '\n' text)).map PlaylistLine.raw) = text
  rw [classifyLines_raw, joinChar_splitOnChar]

lemma mapVariant_playlists (f : Str → Str) (ls : List PlaylistLine) :
    (ls.map (fun l => match l with
      | PlaylistLine.variantUri u => PlaylistLine.variantUri (f u)
      | l => l)).filterMap
        (fun l => match l with | PlaylistLine.variantUri u => some u | _ => none) =
    (ls.filterMap
        (fun l => match l with | PlaylistLine.variantUri u => some u | _ => none)).map f := by
  induction ls with
  | nil => rfl
  | cons l rest ih => cases l <;> simp [ih]

lemma mapVariant_segments (f : Str → Str) (ls : List PlaylistLine) :
    (ls.map (fun l => match l with
      | PlaylistLine.variantUri u => PlaylistLine.variantUri (f u)
      | l => l)).filterMap
        (fun l => match l with | PlaylistLine.segmentUri u => some u | _ => none) =
    ls.filterMap (fun l => match l with | PlaylistLine.segmentUri u => some u | _ => none) := by
  induction ls with
  | nil => rfl
  | cons l rest ih => cases l <;> simp [ih]

lemma mapVariant_nonRef (f : Str → Str) (ls : List PlaylistLine) :
    (ls.map (fun l => match l with
      | PlaylistLine.variantUri u => PlaylistLine.variantUri (f u)
      | l => l)).filterMap
        (fun l => match l with | PlaylistLine.other r => some r | _ => none) =
    ls.filterMap (fun l => match l with | PlaylistLine.other r => some r | _ => none) := by
  induction ls with
  | nil => rfl
  | cons l rest ih => cases l <;> simp [ih]

lemma mapSegment_segments (f : Str → Str) (ls : List PlaylistLine) :
    (ls.map (fun l => match l with
      | PlaylistLine.segmentUri u => PlaylistLine.segmentUri (f u)
      | l => l)).filterMap
        (fun l => match l with | PlaylistLine.segmentUri u => some u | _ => none) =
    (ls.filterMap
        (fun l => match l with | PlaylistLine.segmentUri u => some u | _ => none)).map f := by
  induction ls with
  | nil => rfl
  | cons l rest ih => cases l <;> simp [ih]

lemma mapSegment_playlists (f : Str → Str) (ls : List PlaylistLine) :
    (ls.map (fun l => match l with
      | PlaylistLine.segmentUri u => PlaylistLine.segmentUri (f u)
      | l => l)).filterMap
        (fun l => match l with | PlaylistLine.variantUri u => some u | _ => none) =
    ls.filterMap (fun l => match l with | PlaylistLine.variantUri u => some u | _ => none) := by
  induction ls with
  | nil => rfl
  | cons l rest ih => cases l <;> simp [ih]

lemma mapSegment_nonRef (f : Str → Str) (ls : List PlaylistLine) :
    (ls.map (fun l => match l with
      | PlaylistLine.segmentUri u => PlaylistLine.segmentUri (f u)
      | l => l)).filterMap
        (fun l => match l with | PlaylistLine.other r => some r | _ => none) =
    ls.filterMap (fun l => match l with | PlaylistLine.other r => some r | _ => none) := by
  induction ls with
  | nil => rfl
  | cons l rest ih => cases l <;> simp [ih]

lemma rewritePlaylist_master (base target : Str) (m : M3U8)
    (h : is_master_playlist m = true) :
    (rewritePlaylist base target m).playlists
        = m.playlists.map (rewriteUri base target)
      ∧ (rewritePlaylist base target m).segments = m.segments
      ∧ (rewritePlaylist base target m).nonRefLines = m.nonRefLines
      ∧ (rewritePlaylist base target m).lines.length = m.lines.length := by
  simp only [rewritePlaylist, if_pos h, M3U8.playlists, M3U8.segments,
    M3U8.nonRefLines]
  exact ⟨mapVariant_playlists _ _, mapVariant_segments _ _,
    mapVariant_nonRef _ _, List.length_map _ _⟩

lemma rewritePlaylist_media (base target : Str) (m : M3U8)
    (h : is_master_playlist m = false) :
    (rewritePlaylist base target m).segments
        = m.segments.map (rewriteUri base target)
      ∧ (rewritePlaylist base target m).playlists = m.playlists
      ∧ (rewritePlaylist base target m).nonRefLines = m.nonRefLines
      ∧ (rewritePlaylist base target m).lines.length = m.lines.length := by
  have h' : ¬ is_master_playlist m = true := by simp [h]
  simp only [rewritePlaylist, if_neg h', M3U8.playlists, M3U8.segments,
    M3U8.nonRefLines]
  exact ⟨mapSegment_segments _ _, mapSegment_playlists _ _,
    mapSegment_nonRef _ _, List.length_map _ _⟩

lemma removeC0Space_https (p : Str) :
    removeC0Space ("https://".data ++ p) = "https://".data ++ p := by
  have h : "https://".data ++ p = 'h' :: ("ttps://".data ++ p) := rfl
  rw [h]
  simp only [removeC0Space, List.dropWhile_cons]
  rw [if_neg (by decide)]

lemma removeUnsafeBytes_https (p : Str) :
    removeUnsafeBytes ("https://".data ++ p)
      = "https://".data ++ removeUnsafeBytes p := by
  simp only [removeUnsafeBytes, List.filter_append]
  congr 1

lemma schemeSplit_https (d q : Str) :
    schemeSplit d ("https://".data ++ q) = ("https".data, '/' :: '/' :: q) := by
  have h : "https://".data ++ q = "https".data ++ ':' :: ('/' :: '/' :: q) := rfl
  rw [h]
  simp only [schemeSplit]
  rw [splitFirst_append_not_mem _ _ _ (by decide)]
  rfl

lemma urlparse_target_scheme (p : Str) :
    (urlparse (get_target_url p)).scheme = "https".data := by
  show (schemeSplit []
    (removeUnsafeBytes (removeC0Space ("https://".data ++ p)))).1 = "https".data
  rw [removeC0Space_https, removeUnsafeBytes_https, schemeSplit_https]

lemma netlocSplit_no_slash (x : Str) : '/' ∉ (netlocSplit x).1 := by
  unfold netlocSplit
  split
  · intro hmem
    have := List.mem_takeWhile_imp hmem
    simp at this
  · simp

lemma urlparse_netloc_no_slash (url : Str) : '/' ∉ (urlparse url).netloc := by
  show '/' ∉ (netlocSplit
    (schemeSplit [] (removeUnsafeBytes (removeC0Space url))).2).1
  exact netlocSplit_no_slash _

/-! ### Claim theorems -/

/-- C1 (counterexample): for a manifest at final URL
`https://www088.anzeat.pro/streamhls/abc/ep.1.m3u8` containing the reference
`seg1.ts?token=abc`, the resolved absolute URL keeps its query string, but
decoding the rewritten reference produced by the proxy yields the URL without
the query string — the round-trip is not exact. -/
theorem roundtrip_counterexample :
    resolveRef "https://www088.anzeat.pro/streamhls/abc/ep.1.m3u8".data
        "seg1.ts?token=abc".data
      = "https://www088.anzeat.pro/streamhls/abc/seg1.ts?token=abc".data
    ∧ decode_proxied PROXY_BASE_URL
        (rewriteUri PROXY_BASE_URL
          "https://www088.anzeat.pro/streamhls/abc/ep.1.m3u8".data
          "seg1.ts?token=abc".data)
      = "https://www088.anzeat.pro/streamhls/abc/seg1.ts".data
    ∧ decode_proxied PROXY_BASE_URL
        (rewriteUri PROXY_BASE_URL
          "https://www088.anzeat.pro/streamhls/abc/ep.1.m3u8".data
          "seg1.ts?token=abc".data)
      ≠ resolveRef "https://www088.anzeat.pro/streamhls/abc/ep.1.m3u8".data
          "seg1.ts?token=abc".data := by
  refine ⟨by decide, by decide, by decide⟩

/-- C1 (amended): decoding the rewritten reference recovers exactly the host
and path of `resolve(u, f)` with the scheme forced to `https`; the resolved
URL's query string, fragment and original scheme are not round-tripped, so the
round-trip is exact precisely when the resolved URL is of the form
`https://<host><path>`. -/
theorem roundtrip_amended (base target uri : Str)
    (h : (urlparse (resolveRef target uri)).netloc ≠ []) :
    decode_proxied base (rewriteUri base target uri)
      = "https://".data ++ (urlparse (resolveRef target uri)).netloc
          ++ (urlparse (resolveRef target uri)).path := by
  have hns : '/' ∉ (urlparse (resolveRef target uri)).netloc :=
    urlparse_netloc_no_slash _
  obtain ⟨a, t, hat⟩ : ∃ a t, (urlparse (resolveRef target uri)).netloc = a :: t := by
    cases hcase : (urlparse (resolveRef target uri)).netloc with
    | nil => exact absurd hcase h
    | cons a t => exact ⟨a, t, rfl⟩
  have ha : ¬ a = '/' := fun heq => hns (by rw [hat, heq]; exact List.mem_cons_self _ _)
  have hdrop : ((urlparse (resolveRef target uri)).netloc
      ++ (urlparse (resolveRef target uri)).path).dropWhile (· = '/')
      = (urlparse (resolveRef target uri)).netloc
        ++ (urlparse (resolveRef target uri)).path := by
    rw [hat, List.cons_append, List.dropWhile_cons, if_neg (by simp [ha])]
  show "https://".data ++ ((construct_proxy_url base
      (((urlparse (resolveRef target uri)).netloc
        ++ (urlparse (resolveRef target uri)).path).dropWhile (· = '/'))).drop
      (base ++ "/proxy/".data).length)
    = "https://".data ++ (urlparse (resolveRef target uri)).netloc
        ++ (urlparse (resolveRef target uri)).path
  rw [hdrop, construct_proxy_url, List.drop_left, ← List.append_assoc]

/-- C1 (witness for the amended theorem at a concrete reference). -/
theorem roundtrip_amended_witness :
    (urlparse (resolveRef "https://www088.anzeat.pro/streamhls/abc/ep.1.m3u8".data
        "low.m3u8".data)).netloc ≠ []
    ∧ decode_proxied PROXY_BASE_URL
        (rewriteUri PROXY_BASE_URL
          "https://www088.anzeat.pro/streamhls/abc/ep.1.m3u8".data
          "low.m3u8".data)
      = "https://".data
        ++ (urlparse (resolveRef "https://www088.anzeat.pro/streamhls/abc/ep.1.m3u8".data
              "low.m3u8".data)).netloc
        ++ (urlparse (resolveRef "https://www088.anzeat.pro/streamhls/abc/ep.1.m3u8".data
              "low.m3u8".data)).path :=
  ⟨by decide, roundtrip_amended _ _ _ (by decide)⟩

/-- C2: serialization round-trips playlist text byte-identically, and
rewriting preserves the number and order of lines and references, carries
every non-reference line through verbatim, and replaces exactly the reference
URIs of the branch taken (variant URIs on a master playlist, segment URIs on a
media playlist), leaving the other kind untouched. -/
theorem nonuri_preservation :
    (∀ text, (m3u8_parse text).dumps = text)
    ∧ (∀ base target m,
        (rewritePlaylist base target m).lines.length = m.lines.length
        ∧ (rewritePlaylist base target m).nonRefLines = m.nonRefLines
        ∧ (is_master_playlist m = true →
            (rewritePlaylist base target m).playlists
                = m.playlists.map (rewriteUri base target)
              ∧ (rewritePlaylist base target m).segments = m.segments)
        ∧ (is_master_playlist m = false →
            (rewritePlaylist base target m).segments
                = m.segments.map (rewriteUri base target)
              ∧ (rewritePlaylist base target m).playlists = m.playlists)) := by
  refine ⟨m3u8_dumps_parse, fun base target m => ⟨?_, ?_, fun h => ?_, fun h => ?_⟩⟩
  · cases hm : is_master_playlist m
    · exact (rewritePlaylist_media base target m hm).2.2.2
    · exact (rewritePlaylist_master base target m hm).2.2.2
  · cases hm : is_master_playlist m
    · exact (rewritePlaylist_media base target m hm).2.2.1
    · exact (rewritePlaylist_master base target m hm).2.2.1
  · exact ⟨(rewritePlaylist_master base target m h).1,
      (rewritePlaylist_master base target m h).2.1⟩
  · exact ⟨(rewritePlaylist_media base target m h).1,
      (rewritePlaylist_media base target m h).2.1⟩

/-- C2 (witness at a concrete media playlist). -/
theorem nonuri_preservation_witness :
    is_master_playlist (m3u8_parse
        "#EXTM3U\n#EXT-X-TARGETDURATION:10\n#EXTINF:4,\nseg1.ts\n#EXT-X-ENDLIST".data)
      = false
    ∧ (rewritePlaylist PROXY_BASE_URL
        "https://www088.anzeat.pro/streamhls/abc/ep.1.m3u8".data
        (m3u8_parse
          "#EXTM3U\n#EXT-X-TARGETDURATION:10\n#EXTINF:4,\nseg1.ts\n#EXT-X-ENDLIST".data)).segments
      = (m3u8_parse
          "#EXTM3U\n#EXT-X-TARGETDURATION:10\n#EXTINF:4,\nseg1.ts\n#EXT-X-ENDLIST".data).segments.map
          (rewriteUri PROXY_BASE_URL
            "https://www088.anzeat.pro/streamhls/abc/ep.1.m3u8".data) :=
  ⟨by decide, ((nonuri_preservation.2 PROXY_BASE_URL
      "https://www088.anzeat.pro/streamhls/abc/ep.1.m3u8".data
      (m3u8_parse
        "#EXTM3U\n#EXT-X-TARGETDURATION:10\n#EXTINF:4,\nseg1.ts\n#EXT-X-ENDLIST".data)).2.2.2
      (by decide)).1⟩

/-- C3: a request whose target netloc is non-empty is answered with the 403
"Disallowed target URL." response exactly when that netloc is not a member of
the configured allow-list — membership is exact string equality against the
configured set, for any path or query. -/
theorem allowlist_enforcement (allowed : List Str) (p : Str)
    (hne : allowed ≠ [])
    (hh : (urlparse (get_target_url p)).netloc ≠ []) :
    proxy allowed p = ProxyResult.err 403 "Disallowed target URL.".data
      ↔ (urlparse (get_target_url p)).netloc ∉ allowed := by
  have hs : (urlparse (get_target_url p)).scheme = "https".data :=
    urlparse_target_scheme p
  simp only [proxy]
  rw [if_neg (by rw [hs]; simp [hh])]
  by_cases hm : (urlparse (get_target_url p)).netloc ∈ allowed
  · rw [if_neg (fun hno => hno hm)]
    constructor
    · intro hcontra
      by_cases hsuf : ".m3u8".data.isSuffixOf
          (lowerStr (urlparse (get_target_url p)).path)
      · rw [if_pos hsuf] at hcontra; exact ProxyResult.noConfusion hcontra
      · rw [if_neg hsuf] at hcontra; exact ProxyResult.noConfusion hcontra
    · intro hno; exact absurd hm hno
  · rw [if_pos hm]
    exact ⟨fun _ => hm, fun _ => rfl⟩

/-- C3 (witness: a host outside the default allow-list is answered 403). -/
theorem allowlist_enforcement_witness :
    proxy ALLOWED_DOMAINS "evil.com/x.m3u8".data
      = ProxyResult.err 403 "Disallowed target URL.".data :=
  (allowlist_enforcement ALLOWED_DOMAINS "evil.com/x.m3u8".data
    (by decide) (by decide)).mpr (by decide)

/-- C4 (amended): the rewriter resolves every reference against `target_url`,
the originally requested URL the handler was called with; the final fetch URL
returned by the origin after redirects is never consulted — the served result
depends only on the response body text. -/
theorem resolves_against_requested_url (base target_url requested_path : Str)
    (ch : List (Str × Str)) (r r' : FetchResponse) (h : r.text = r'.text) :
    handle_m3u8 base target_url requested_path ch r
      = handle_m3u8 base target_url requested_path ch r' := by
  simp only [handle_m3u8, h]

/-- C4 (witness: two responses with the same body but different final URLs
produce the same served result). -/
theorem resolves_against_requested_url_witness :
    handle_m3u8 PROXY_BASE_URL
        "https://www088.anzeat.pro/streamhls/abc/ep.1.m3u8".data
        "www088.anzeat.pro/streamhls/abc/ep.1.m3u8".data []
        ⟨"https://www088.anzeat.pro/streamhls/zzz/ep.1.m3u8".data,
         "#EXTM3U\n#EXTINF:4,\nseg1.ts\n#EXT-X-ENDLIST".data⟩
      = handle_m3u8 PROXY_BASE_URL
        "https://www088.anzeat.pro/streamhls/abc/ep.1.m3u8".data
        "www088.anzeat.pro/streamhls/abc/ep.1.m3u8".data []
        ⟨"https://www088.anzeat.pro/streamhls/abc/ep.1.m3u8".data,
         "#EXTM3U\n#EXTINF:4,\nseg1.ts\n#EXT-X-ENDLIST".data⟩ :=
  resolves_against_requested_url _ _ _ _ _ _ rfl

/-- C4 (counterexample): with requested target `.../abc/ep.1.m3u8` and a
response whose final fetch URL is `.../zzz/ep.1.m3u8`, the relative reference
`seg1.ts` is rewritten using the `abc` base — not, as the claim states, the
redirect-final `zzz` base, which would have produced the second body. -/
theorem resolve_base_counterexample :
    (handle_m3u8 PROXY_BASE_URL
        "https://www088.anzeat.pro/streamhls/abc/ep.1.m3u8".data
        "www088.anzeat.pro/streamhls/abc/ep.1.m3u8".data []
        ⟨"https://www088.anzeat.pro/streamhls/zzz/ep.1.m3u8".data,
         "#EXTM3U\n#EXTINF:4,\nseg1.ts\n#EXT-X-ENDLIST".data⟩).body
      = "#EXTM3U\n#EXTINF:4,\nhttps://m3u8.adgstudios.co.za/proxy/www088.anzeat.pro/streamhls/abc/seg1.ts\n#EXT-X-ENDLIST".data
    ∧ rewriteUri PROXY_BASE_URL
        "https://www088.anzeat.pro/streamhls/zzz/ep.1.m3u8".data "seg1.ts".data
      = "https://m3u8.adgstudios.co.za/proxy/www088.anzeat.pro/streamhls/zzz/seg1.ts".data
    ∧ "#EXTM3U\n#EXTINF:4,\nhttps://m3u8.adgstudios.co.za/proxy/www088.anzeat.pro/streamhls/abc/seg1.ts\n#EXT-X-ENDLIST".data
      ≠ "#EXTM3U\n#EXTINF:4,\nhttps://m3u8.adgstudios.co.za/proxy/www088.anzeat.pro/streamhls/zzz/seg1.ts\n#EXT-X-ENDLIST".data := by
  refine ⟨by decide, by decide, by decide⟩

/-- C5: a parsed playlist classifies as master exactly when it has at least
one variant reference and no segment references; the master branch rewrites
the variant URIs leaving segments untouched, and the media branch rewrites the
segment URIs leaving variants untouched. -/
theorem classification_correctness :
    (∀ text, is_master_playlist (m3u8_parse text) = true
        ↔ ((m3u8_parse text).playlists ≠ [] ∧ (m3u8_parse text).segments = []))
    ∧ (∀ base target m, is_master_playlist m = true →
        (rewritePlaylist base target m).playlists
            = m.playlists.map (rewriteUri base target)
          ∧ (rewritePlaylist base target m).segments = m.segments)
    ∧ (∀ base target m, is_master_playlist m = false →
        (rewritePlaylist base target m).segments
            = m.segments.map (rewriteUri base target)
          ∧ (rewritePlaylist base target m).playlists = m.playlists) := by
  refine ⟨fun text => ?_,
    fun b t m h => ⟨(rewritePlaylist_master b t m h).1,
      (rewritePlaylist_master b t m h).2.1⟩,
    fun b t m h => ⟨(rewritePlaylist_media b t m h).1,
      (rewritePlaylist_media b t m h).2.1⟩⟩
  simp [is_master_playlist, M3U8.is_variant, List.isEmpty_iff]

/-- C5 (witness: the two-variant master playlist of the spec's concrete
example classifies master and has its variant URIs rewritten). -/
theorem classification_correctness_witness :
    is_master_playlist (m3u8_parse
        "#EXTM3U\n#EXT-X-STREAM-INF:BANDWIDTH=800000\nlow.m3u8\n#EXT-X-STREAM-INF:BANDWIDTH=2000000\nhigh.m3u8".data)
      = true
    ∧ (rewritePlaylist PROXY_BASE_URL
        "https://www088.anzeat.pro/hls/index.m3u8".data
        (m3u8_parse
          "#EXTM3U\n#EXT-X-STREAM-INF:BANDWIDTH=800000\nlow.m3u8\n#EXT-X-STREAM-INF:BANDWIDTH=2000000\nhigh.m3u8".data)).playlists
      = (m3u8_parse
          "#EXTM3U\n#EXT-X-STREAM-INF:BANDWIDTH=800000\nlow.m3u8\n#EXT-X-STREAM-INF:BANDWIDTH=2000000\nhigh.m3u8".data).playlists.map
          (rewriteUri PROXY_BASE_URL
            "https://www088.anzeat.pro/hls/index.m3u8".data) :=
  ⟨by decide, (classification_correctness.2.1 PROXY_BASE_URL
      "https://www088.anzeat.pro/hls/index.m3u8".data
      (m3u8_parse
        "#EXTM3U\n#EXT-X-STREAM-INF:BANDWIDTH=800000\nlow.m3u8\n#EXT-X-STREAM-INF:BANDWIDTH=2000000\nhigh.m3u8".data)
      (by decide)).1⟩

/-- C6 (amended): every non-manifest response — including one whose target
path ends in `.ts` — is served with exactly the Content-Type the origin
declared, falling back to `application/octet-stream` only when the origin
declared none; there is no transport-stream override. -/
theorem mime_passthrough :
    (∀ target_url requested_path ch (resp : SegmentResponse) c,
        resp.contentType = some c →
        (handle_other target_url requested_path ch resp).content_type = c)
    ∧ (∀ target_url requested_path ch (resp : SegmentResponse),
        resp.contentType = none →
        (handle_other target_url requested_path ch resp).content_type
          = "application/octet-stream".data) := by
  constructor
  · intro t r ch resp c h; simp [handle_other, h]
  · intro t r ch resp h; simp [handle_other, h]

/-- C6 (witness: the origin's declared type is passed through). -/
theorem mime_passthrough_witness :
    (handle_other "https://www088.anzeat.pro/streamhls/abc/seg1.ts".data
        "www088.anzeat.pro/streamhls/abc/seg1.ts".data []
        ⟨"https://www088.anzeat.pro/streamhls/abc/seg1.ts".data,
         some "video/mp2t".data⟩).content_type
      = "video/mp2t".data :=
  mime_passthrough.1 "https://www088.anzeat.pro/streamhls/abc/seg1.ts".data
    "www088.anzeat.pro/streamhls/abc/seg1.ts".data []
    ⟨"https://www088.anzeat.pro/streamhls/abc/seg1.ts".data,
     some "video/mp2t".data⟩ "video/mp2t".data rfl

/-- C6 (counterexample): a target path ending in `.ts` whose origin reports
`text/plain` is served as `text/plain`, not as the transport-stream media
type. -/
theorem mime_ts_counterexample :
    ".ts".data.isSuffixOf
        (lowerStr (urlparse "https://www088.anzeat.pro/streamhls/abc/seg1.ts".data).path)
      = true
    ∧ (handle_other "https://www088.anzeat.pro/streamhls/abc/seg1.ts".data
        "www088.anzeat.pro/streamhls/abc/seg1.ts".data []
        ⟨"https://www088.anzeat.pro/streamhls/abc/seg1.ts".data,
         some "text/plain".data⟩).content_type
      = "text/plain".data
    ∧ "text/plain".data ≠ "video/mp2t".data := by
  refine ⟨by decide, by decide, by decide⟩

/-- C7 (amended): every successful response has status 200; a manifest
response carries the Apple mpegurl Content-Type and a Content-Disposition of
the form `attachment; filename="<original-basename>"` — not `inline` — and no
CORS header; a segment response carries the classified content type and no
additional headers at all. -/
theorem response_headers :
    (∀ base target_url requested_path ch resp,
        (handle_m3u8 base target_url requested_path ch resp).status = 200
        ∧ (handle_m3u8 base target_url requested_path ch resp).mimetype
            = "application/vnd.apple.mpegurl".data
        ∧ (handle_m3u8 base target_url requested_path ch resp).headers
            = [("Content-Disposition".data,
                "attachment; filename=\"".data ++ basename requested_path ++ ['"'])]
        ∧ ((handle_m3u8 base target_url requested_path ch resp).headers).lookup
            "Access-Control-Allow-Origin".data = none)
    ∧ (∀ target_url requested_path ch resp,
        (handle_other target_url requested_path ch resp).status = 200
        ∧ (handle_other target_url requested_path ch resp).headers = []) :=
  ⟨fun _ _ _ _ _ => ⟨rfl, rfl, rfl, rfl⟩, fun _ _ _ _ => ⟨rfl, rfl⟩⟩

/-- C7 (counterexample): the manifest response's Content-Disposition is the
`attachment` form, not the `inline` form the claim states, and no
`Access-Control-Allow-Origin` header is present. -/
theorem response_headers_counterexample :
    ((handle_m3u8 PROXY_BASE_URL
        "https://www088.anzeat.pro/streamhls/abc/ep.1.m3u8".data
        "www088.anzeat.pro/streamhls/abc/ep.1.m3u8".data []
        ⟨"https://www088.anzeat.pro/streamhls/abc/ep.1.m3u8".data,
         "#EXTM3U".data⟩).headers).lookup "Content-Disposition".data
      = some "attachment; filename=\"ep.1.m3u8\"".data
    ∧ "attachment; filename=\"ep.1.m3u8\"".data
      ≠ "inline; filename=\"ep.1.m3u8\"".data
    ∧ ((handle_m3u8 PROXY_BASE_URL
        "https://www088.anzeat.pro/streamhls/abc/ep.1.m3u8".data
        "www088.anzeat.pro/streamhls/abc/ep.1.m3u8".data []
        ⟨"https://www088.anzeat.pro/streamhls/abc/ep.1.m3u8".data,
         "#EXTM3U".data⟩).headers).lookup "Access-Control-Allow-Origin".data
      = none := by
  refine ⟨by decide, by decide, by decide⟩

/-- C8 (amended): the segment fetch forwards exactly the client headers whose
name is not `host` (case-insensitively); the manifest fetch forwards no client
headers at all. -/
theorem header_forwarding :
    (∀ target_url requested_path ch resp,
        (handle_other target_url requested_path ch resp).originRequestHeaders
          = forward_headers ch)
    ∧ (∀ ch (h : Str × Str),
        h ∈ forward_headers ch ↔ (h ∈ ch ∧ lowerStr h.1 ≠ "host".data))
    ∧ (∀ base target_url requested_path ch resp,
        (handle_m3u8 base target_url requested_path ch resp).originRequestHeaders
          = []) := by
  refine ⟨fun _ _ _ _ => rfl, fun ch h => ?_, fun _ _ _ _ _ => rfl⟩
  simp [forward_headers, List.mem_filter]

/-- C8 (counterexample): a manifest fetch forwards no headers even when the
client supplied a non-host header (`Range`), which the same request's segment
fetch would forward. -/
theorem header_forwarding_counterexample :
    (handle_m3u8 PROXY_BASE_URL
        "https://www088.anzeat.pro/streamhls/abc/ep.1.m3u8".data
        "www088.anzeat.pro/streamhls/abc/ep.1.m3u8".data
        [("Range".data, "bytes=0-".data)]
        ⟨"https://www088.anzeat.pro/streamhls/abc/ep.1.m3u8".data,
         "#EXTM3U".data⟩).originRequestHeaders
      = []
    ∧ lowerStr "Range".data ≠ "host".data
    ∧ forward_headers [("Range".data, "bytes=0-".data)]
      = [("Range".data, "bytes=0-".data)] := by
  refine ⟨rfl, by decide, by decide⟩

/-- C9: after a put at `t0` with time-to-live `ttl`, a get strictly later
than `t0 + ttl` misses (and the memoized handler performs a fresh origin
fetch), while a get strictly earlier than `t0 + ttl` returns the stored value
(and the memoized handler does not fetch); the default timeout is 300 seconds
for the cache and for both memoized handlers. -/
theorem cache_freshness :
    (∀ (c : CacheState) (k v w : Str) (t0 ttl ε : ℚ), 0 < ε →
        cacheGet (cachePut c k v t0 ttl) k (t0 + ttl + ε) = none
        ∧ (cachedFetch (cachePut c k v t0 ttl) k (t0 + ttl + ε) ttl w).2.1 = true
        ∧ cacheGet (cachePut c k v t0 ttl) k (t0 + ttl - ε) = some v
        ∧ (cachedFetch (cachePut c k v t0 ttl) k (t0 + ttl - ε) ttl w).1 = v
        ∧ (cachedFetch (cachePut c k v t0 ttl) k (t0 + ttl - ε) ttl w).2.1 = false)
    ∧ CACHE_DEFAULT_TIMEOUT = 300 ∧ HANDLE_M3U8_CACHE_TIMEOUT = 300
    ∧ HANDLE_OTHER_CACHE_TIMEOUT = 300 := by
  refine ⟨fun c k v w t0 ttl ε hε => ?_, rfl, rfl, rfl⟩
  have key : cachePut c k v t0 ttl k = some ⟨v, t0, ttl⟩ := by simp [cachePut]
  have hmiss : cacheGet (cachePut c k v t0 ttl) k (t0 + ttl + ε) = none := by
    simp only [cacheGet, key]
    rw [if_pos (by linarith)]
  have hhit : cacheGet (cachePut c k v t0 ttl) k (t0 + ttl - ε) = some v := by
    simp only [cacheGet, key]
    rw [if_neg (by simp; linarith)]
  exact ⟨hmiss, by simp [cachedFetch, hmiss], hhit,
    by simp [cachedFetch, hhit], by simp [cachedFetch, hhit]⟩

/-- C9 (witness: with the default 300-second ttl, a get 301 seconds after the
put misses and a get 299 seconds after returns the value). -/
theorem cache_freshness_witness :
    cacheGet (cachePut (fun _ => none) "k".data "v".data 0 300)
        "k".data (0 + 300 + 1) = none
    ∧ cacheGet (cachePut (fun _ => none) "k".data "v".data 0 300)
        "k".data (0 + 300 - 1) = some "v".data :=
  ⟨(cache_freshness.1 (fun _ => none) "k".data "v".data "w".data 0 300 1
      (by norm_num)).1,
   (cache_freshness.1 (fun _ => none) "k".data "v".data "w".data 0 300 1
      (by norm_num)).2.2.1⟩

/-- C10: every target URL the proxy constructs is `https://` followed by the
requested path and parses with scheme `https`; in particular a rewritten
reference, once decoded by the dispatcher, is re-fetched over https no matter
what scheme the original absolute URI used. -/
theorem https_only :
    (∀ requested_path, get_target_url requested_path
        = "https://".data ++ requested_path)
    ∧ (∀ requested_path,
        (urlparse (get_target_url requested_path)).scheme = "https".data)
    ∧ (∀ base target uri,
        (urlparse (decode_proxied base (rewriteUri base target uri))).scheme
          = "https".data) :=
  ⟨fun _ => rfl, urlparse_target_scheme,
   fun base target uri => urlparse_target_scheme
     ((rewriteUri base target uri).drop (base ++ "/proxy/".data).length)⟩

end M3U8Proxy
